import Mathlib

/-!
Verification of the Madison intelligence core of the Helix Insights app
(src/app.py): the recency check `is_date_recent`, the six-factor threat
scorer `analyze_record`, the action recommender `generate_action_items`,
and the batch aggregator `generate_executive_summary`.

Dates are embedded abstractly: a parsed `YYYY-MM-DD` date is a whole-day
index (`Int`), and the evaluation wall-clock time `now` is likewise a
whole-day index, so `(now - date).days` of the source becomes integer
subtraction.  Strings are Lean `String`s; Python's `needle in haystack`
is list-infix containment on the character lists, and `.lower()` is
character-wise lowercasing.  The provenance metadata fields `analysisTimestamp`
and `agentVersion` of the source's result dict are wall-clock/constant
metadata used by no downstream decision and are not embedded.
-/

namespace HelixInsights

/-- Python substring test `needle in haystack`. -/
def strContains (haystack needle : String) : Bool :=
  decide (needle.data <:+: haystack.data)

/-- Python `.lower()`: character-wise lowercasing (the record fields in
scope are ASCII, where `Char.toLower` and `str.lower` agree). -/
def strToLower (s : String) : String :=
  ⟨s.data.map Char.toLower⟩

/-- Python slicing `s[:n]`: the first `n` characters. -/
def strTake (s : String) (n : Nat) : String :=
  ⟨s.data.take n⟩

/-- A date-valued record field as the source distinguishes it:
`absent` is a missing key (`dict.get` yields `None`); `emptyString` is
the empty string; `na` is the literal sentinel `"N/A"`; `malformed` is
any other string rejected by `strptime(date_string, "%Y-%m-%d")`;
`validDate day` is a string parsing to the date at whole-day index
`day`. -/
inductive DateField where
  | absent
  | emptyString
  | na
  | malformed
  | validDate (day : Int)
deriving DecidableEq

/-- Embeds `MadisonIntelligenceAgent.is_date_recent` (src/app.py lines
78-89).  `now` is the wall-clock day index of `datetime.now()`.  The
source returns `False` for falsy input (`None` or `""`) and for the
sentinel `"N/A"`, returns `False` from the `except` arm on any parse
failure, and otherwise tests `0 <= (now - date).days <= days_threshold`. -/
def is_date_recent (now : Int) (date_string : DateField) (days_threshold : Nat) : Bool :=
  match date_string with
  | .absent => false
  | .emptyString => false
  | .na => false
  | .malformed => false
  | .validDate day => decide (0 ≤ now - day ∧ now - day ≤ (days_threshold : Int))

/-- A normalized input record (src/app.py reads these keys via
`record.get`).  `none` in an `Option String` field means the key is
absent. -/
structure Record where
  source : Option String
  company : Option String
  deviceName : Option String
  trialTitle : Option String
  productCode : Option String
  decisionDate : DateField
  startDate : DateField
deriving DecidableEq

/-- Python truthiness of a date field: `None` and `""` are falsy,
every other string (including `"N/A"`) is truthy. -/
def pyFalsyDate : DateField → Bool
  | .absent => true
  | .emptyString => true
  | _ => false

/-- The effective date of src/app.py line 103:
`record.get('decisionDate') or record.get('startDate', '')`.
The fallback to `startDate` fires exactly when `decisionDate` is falsy
(absent or empty), and an absent `startDate` defaults to `""`. -/
def effectiveDate (r : Record) : DateField :=
  if pyFalsyDate r.decisionDate then
    match r.startDate with
    | .absent => .emptyString
    | d => d
  else r.decisionDate

/-- `record.get('source', '')` (line 99). -/
def sourceStr (r : Record) : String := r.source.getD ""

/-- `(record.get('company', '') or '').lower()` (line 100). -/
def companyLower (r : Record) : String := strToLower (r.company.getD "")

/-- `(record.get('deviceName', '') or '').lower()` (line 101). -/
def deviceNameLower (r : Record) : String := strToLower (r.deviceName.getD "")

/-- `(record.get('trialTitle', '') or '').lower()` (line 102). -/
def trialTitleLower (r : Record) : String := strToLower (r.trialTitle.getD "")

/-- `(record.get('productCode', '') or '').lower()` (line 104). -/
def productCodeLower (r : Record) : String := strToLower (r.productCode.getD "")

/-- The search text of line 124: `f"{device_name} {trial_title} {product_code}"`. -/
def searchText (r : Record) : String :=
  deviceNameLower r ++ " " ++ trialTitleLower r ++ " " ++ productCodeLower r

/-- `ophthalmic_terms` (lines 117-122). -/
def ophthalmic_terms : List String :=
  ["contact lens", "intraocular", "iol", "lens",
   "ophthalmic", "vision", "eye", "retina", "cornea",
   "cataract", "glaucoma", "myopia", "surgical",
   "vitreous", "retinal", "ocular", "subretinal", "aspirator"]

/-- `advanced_terms` (line 131). -/
def advanced_terms : List String :=
  ["surgical", "implant", "laser", "aspirator", "injector", "advanced"]

/-- `advanced_phases` (line 149). -/
def advanced_phases : List String :=
  ["phase 3", "phase iii", "phase 2", "phase ii"]

/-- `major_competitors` (lines 156-160). -/
def major_competitors : List String :=
  ["alcon", "bausch", "coopervision", "zeiss", "johnson",
   "novartis", "essilor", "hoya", "menicon", "paragon",
   "optical", "vision", "staar", "amo"]

/-- Python `any(term in text for term in terms)`. -/
def matchesAny (text : String) (terms : List String) : Bool :=
  terms.any (fun t => strContains text t)

/-- Factor 1, Recent Activity (lines 106-114): two mutually exclusive
recency tiers over the effective date.  Each factor value is
(score contribution, confidence contribution, appended implications). -/
def factor1 (now : Int) (d : DateField) : Nat × Nat × List String :=
  if is_date_recent now d 730 then
    (35, 25, ["Recent approval/trial within last 2 years"])
  else if is_date_recent now d 1825 then
    (20, 15, ["Activity within last 5 years"])
  else (0, 0, [])

/-- Factor 2, Ophthalmology Categories (lines 116-128). -/
def factor2 (search_text : String) : Nat × Nat × List String :=
  if matchesAny search_text ophthalmic_terms then
    (30, 20, ["High-value ophthalmology product category"])
  else (0, 0, [])

/-- Factor 3, Advanced/Surgical Devices (lines 130-135). -/
def factor3 (search_text : String) : Nat × Nat × List String :=
  if matchesAny search_text advanced_terms then
    (25, 15, ["Advanced surgical or premium device"])
  else (0, 0, [])

/-- Factor 4, FDA Approval (lines 137-141): `'FDA' in source` on the
raw (not lowercased) source string. -/
def factor4 (source : String) : Nat × Nat × List String :=
  if strContains source "FDA" then
    (20, 15, ["FDA 510(k) clearance provides market access"])
  else (0, 0, [])

/-- Factor 5, Clinical Trial (lines 143-153): +15/+10 when
`'Clinical' in source`, and a further +30/+20 phase bonus nested under
that condition when the lowercased trial title contains an advanced
phase term. -/
def factor5 (source trial_title : String) : Nat × Nat × List String :=
  if strContains source "Clinical" then
    if matchesAny trial_title advanced_phases then
      (45, 30, ["Active clinical development", "Advanced clinical phase"])
    else
      (15, 10, ["Active clinical development"])
  else (0, 0, [])

/-- Factor 6, Major Competitors (lines 155-165). -/
def factor6 (company : String) : Nat × Nat × List String :=
  if matchesAny company major_competitors then
    (25, 20, ["Established ophthalmology competitor"])
  else (0, 0, [])

/-- The accumulated `threat_score` just before level derivation. -/
def rawScore (now : Int) (r : Record) : Nat :=
  (factor1 now (effectiveDate r)).1 + (factor2 (searchText r)).1 +
  (factor3 (searchText r)).1 + (factor4 (sourceStr r)).1 +
  (factor5 (sourceStr r) (trialTitleLower r)).1 + (factor6 (companyLower r)).1

/-- The accumulated `confidence` just before level derivation. -/
def rawConfidence (now : Int) (r : Record) : Nat :=
  (factor1 now (effectiveDate r)).2.1 + (factor2 (searchText r)).2.1 +
  (factor3 (searchText r)).2.1 + (factor4 (sourceStr r)).2.1 +
  (factor5 (sourceStr r) (trialTitleLower r)).2.1 + (factor6 (companyLower r)).2.1

/-- The accumulated `strategic_implications`, in factor order. -/
def rawImplications (now : Int) (r : Record) : List String :=
  (factor1 now (effectiveDate r)).2.2 ++ (factor2 (searchText r)).2.2 ++
  (factor3 (searchText r)).2.2 ++ (factor4 (sourceStr r)).2.2 ++
  (factor5 (sourceStr r) (trialTitleLower r)).2.2 ++ (factor6 (companyLower r)).2.2

/-- The threat-level / confidence derivation of lines 167-181:
highest-first thresholds on the accumulated score, each branch
adjusting the accumulated confidence. -/
def derive_threat_level (threat_score confidence : Nat) : String × Nat :=
  if 70 ≤ threat_score then ("CRITICAL", min (confidence + 25) 95)
  else if 50 ≤ threat_score then ("HIGH", min (confidence + 15) 90)
  else if 30 ≤ threat_score then ("MEDIUM", min (confidence + 10) 85)
  else if 10 ≤ threat_score then ("LOW", max confidence 70)
  else ("LOW", 60)

/-- One recommended action (lines 198-236). -/
structure ActionItem where
  priority : String
  action : String
  timeline : String
  owner : String
deriving DecidableEq

/-- The unconditional quarterly review action (lines 229-234). -/
def quarterly_review_item : ActionItem :=
  { priority := "LOW"
    action := "Include in quarterly competitive review"
    timeline := "Quarterly"
    owner := "Strategic Planning" }

/-- Embeds `MadisonIntelligenceAgent.generate_action_items` (lines
198-236).  Blank company/device fall back to the literals
`"Competitor"` / `"device"`; the quarterly item is always appended
last. -/
def generate_action_items (threat_level company device : String) : List ActionItem :=
  let company_name := if company = "" then "Competitor" else company
  let device_name := if device = "" then "device" else device
  (if threat_level = "CRITICAL" then
    [{ priority := "URGENT"
       action := "IMMEDIATE: Executive briefing on " ++ company_name ++ "\x27s " ++ device_name
       timeline := "Within 48 hours"
       owner := "Executive Leadership" }]
   else []) ++
  (if ["HIGH", "CRITICAL"].contains threat_level then
    [{ priority := "HIGH"
       action := "Competitive deep-dive: " ++ company_name ++ " strategy and positioning"
       timeline := "Within 2 weeks"
       owner := "Competitive Intelligence" }]
   else []) ++
  (if ["MEDIUM", "HIGH", "CRITICAL"].contains threat_level then
    [{ priority := "MEDIUM"
       action := "Monitor " ++ company_name ++ " market activities"
       timeline := "Next 90 days"
       owner := "Market Intelligence" }]
   else []) ++
  [quarterly_review_item]

/-- The scoring result attached to a record (the `madisonIntelligence`
dict minus the two provenance metadata fields). -/
structure AnalysisResult where
  threatScore : Nat
  threatLevel : String
  confidence : Nat
  strategicImplications : List String
  actionItems : List ActionItem
deriving DecidableEq

/-- Embeds `MadisonIntelligenceAgent.analyze_record` (lines 91-196):
accumulate the six factors in order, derive the level and adjusted
confidence, and generate action items from the level, the lowercased
company, and `device_name or trial_title`. -/
def analyze_record (now : Int) (r : Record) : AnalysisResult :=
  { threatScore := rawScore now r
    threatLevel := (derive_threat_level (rawScore now r) (rawConfidence now r)).1
    confidence := (derive_threat_level (rawScore now r) (rawConfidence now r)).2
    strategicImplications := rawImplications now r
    actionItems :=
      generate_action_items (derive_threat_level (rawScore now r) (rawConfidence now r)).1
        (companyLower r)
        (if deviceNameLower r = "" then trialTitleLower r else deviceNameLower r) }

/-- A record carrying its scoring result, as built by the analysis loop
(src/app.py lines 589-593: `record['madisonIntelligence'] = intelligence`). -/
structure AnalyzedRecord where
  record : Record
  madisonIntelligence : AnalysisResult
deriving DecidableEq

/-- The per-level tally dict `threat_counts` (line 450), zero-initialized
over the four fixed keys. -/
structure ThreatCounts where
  CRITICAL : Nat
  HIGH : Nat
  MEDIUM : Nat
  LOW : Nat
deriving DecidableEq

/-- `threat_counts[intel['threatLevel']] += 1` (line 457).  Any level
outside the four keys would raise `KeyError` in the source; it is
unreachable for outputs of `analyze_record`, and left as the identity
here. -/
def bumpCount (counts : ThreatCounts) (level : String) : ThreatCounts :=
  if level = "CRITICAL" then { counts with CRITICAL := counts.CRITICAL + 1 }
  else if level = "HIGH" then { counts with HIGH := counts.HIGH + 1 }
  else if level = "MEDIUM" then { counts with MEDIUM := counts.MEDIUM + 1 }
  else if level = "LOW" then { counts with LOW := counts.LOW + 1 }
  else counts

/-- The tally over the whole batch. -/
def threatCountsOf (records : List AnalyzedRecord) : ThreatCounts :=
  records.foldl (fun c ar => bumpCount c ar.madisonIntelligence.threatLevel) ⟨0, 0, 0, 0⟩

/-- `total_confidence` accumulated over the batch (line 458). -/
def totalConfidence (records : List AnalyzedRecord) : Nat :=
  records.foldl (fun s ar => s + ar.madisonIntelligence.confidence) 0

/-- `record.get('deviceName') or record.get('trialTitle', 'Unknown')`
(lines 463 and 471): `deviceName` when present and non-empty, else
`trialTitle`, defaulting to `"Unknown"` only when the `trialTitle` key
is absent. -/
def productOrTrial (r : Record) : String :=
  if r.deviceName.getD "" = "" then r.trialTitle.getD "Unknown" else r.deviceName.getD ""

/-- A `critical_threats` projection entry (lines 461-467). -/
structure CriticalEntry where
  company : String
  product : String
  threatScore : Nat
  confidence : Nat
  urgentAction : String
deriving DecidableEq

/-- A `high_threats` projection entry (lines 469-474): same projection
without the urgent action. -/
structure HighEntry where
  company : String
  product : String
  threatScore : Nat
  confidence : Nat
deriving DecidableEq

/-- Projection of one CRITICAL record (lines 461-467): company defaults
to `"Unknown"`, product name truncated to its first 100 characters,
urgent action is the first action item's text or the literal fallback
`"Review immediately"` when the action list is empty. -/
def criticalEntryOf (ar : AnalyzedRecord) : CriticalEntry :=
  { company := ar.record.company.getD "Unknown"
    product := strTake (productOrTrial ar.record) 100
    threatScore := ar.madisonIntelligence.threatScore
    confidence := ar.madisonIntelligence.confidence
    urgentAction :=
      match ar.madisonIntelligence.actionItems with
      | [] => "Review immediately"
      | a :: _ => a.action }

/-- Projection of one HIGH record (lines 469-474). -/
def highEntryOf (ar : AnalyzedRecord) : HighEntry :=
  { company := ar.record.company.getD "Unknown"
    product := strTake (productOrTrial ar.record) 100
    threatScore := ar.madisonIntelligence.threatScore
    confidence := ar.madisonIntelligence.confidence }

/-- The `critical_threats` list before sorting: CRITICAL records
projected in batch order (the single pass of lines 455-467). -/
def criticalThreatsAll (records : List AnalyzedRecord) : List CriticalEntry :=
  (records.filter (fun ar => ar.madisonIntelligence.threatLevel == "CRITICAL")).map criticalEntryOf

/-- The `high_threats` list before sorting (lines 468-474). -/
def highThreatsAll (records : List AnalyzedRecord) : List HighEntry :=
  (records.filter (fun ar => ar.madisonIntelligence.threatLevel == "HIGH")).map highEntryOf

/-- Stable descending insertion step: `a` is placed before the first
element whose key is less than or equal to its own, so it lands after
every earlier-listed element with a strictly greater key and before
every element with an equal or smaller key. -/
def orderedInsertDesc {α : Type} (key : α → Nat) (a : α) : List α → List α
  | [] => [a]
  | b :: l => if key b ≤ key a then a :: b :: l else b :: orderedInsertDesc key a l

/-- Embeds Python's `list.sort(key=lambda x: x[k], reverse=True)`
(lines 476-477): a stable descending sort by the key.  Python's sort is
stable with `reverse=True` (equal-key elements keep their original
order); stable sorts of the same list under the same total key order
coincide, so this insertion sort computes the same list. -/
def pySortDescBy {α : Type} (key : α → Nat) : List α → List α
  | [] => []
  | a :: l => orderedInsertDesc key a (pySortDescBy key l)

/-- Python's `round` on an exact ratio `num / den`: round half to even
(used for `round(total_confidence / len(analyzed_records))`, line 479). -/
def pyRound (num den : Nat) : Nat :=
  if 2 * (num % den) < den then num / den
  else if den < 2 * (num % den) then num / den + 1
  else if num / den % 2 = 0 then num / den else num / den + 1

/-- The executive summary dict (lines 481-488). -/
structure ExecutiveSummary where
  threatOverview : ThreatCounts
  averageConfidence : Nat
  totalRecords : Nat
  criticalThreats : List CriticalEntry
  highThreats : List HighEntry
  executiveSummary : String
deriving DecidableEq

/-- The narrative template of line 487. -/
def summaryNarrative (n : Nat) (counts : ThreatCounts) (avg : Nat) : String :=
  "Helix Insights analyzed " ++ toString n ++
  " competitive records from FDA device approvals and clinical trial databases. Analysis identified " ++
  toString counts.CRITICAL ++ " CRITICAL threats requiring immediate executive action, " ++
  toString counts.HIGH ++ " HIGH priority items for strategic competitive review, " ++
  toString counts.MEDIUM ++ " MEDIUM priority items for ongoing monitoring, and " ++
  toString counts.LOW ++ " LOW priority items for quarterly review. Average threat assessment confidence level: " ++
  toString avg ++ "%."

/-- Embeds `generate_executive_summary` (src/app.py lines 448-488):
tally levels, average the confidences (0 for an empty batch, no
division), sort each projection list by score descending (stable) and
keep the top 5, and render the narrative from the same values. -/
def generate_executive_summary (records : List AnalyzedRecord) : ExecutiveSummary :=
  let counts := threatCountsOf records
  let avg := if records.isEmpty then 0 else pyRound (totalConfidence records) records.length
  { threatOverview := counts
    averageConfidence := avg
    totalRecords := records.length
    criticalThreats := (pySortDescBy (fun e => e.threatScore) (criticalThreatsAll records)).take 5
    highThreats := (pySortDescBy (fun e => e.threatScore) (highThreatsAll records)).take 5
    executiveSummary := summaryNarrative records.length counts avg }

/-- Rank of a threat level for monotonicity statements:
LOW = 0, MEDIUM = 1, HIGH = 2, CRITICAL = 3. -/
def levelRank : String → Nat :=
  fun level =>
    if level = "CRITICAL" then 3
    else if level = "HIGH" then 2
    else if level = "MEDIUM" then 1
    else 0

/-- A record with every optional field missing and no dates. -/
def emptyRecord : Record :=
  { source := none, company := none, deviceName := none, trialTitle := none,
    productCode := none, decisionDate := .absent, startDate := .absent }

/-- The Alcon scenario record of spec section 8, with its decision date
at day index `d`. -/
def alconRecord (d : Int) : Record :=
  { source := some "FDA 510(k)", company := some "Alcon Laboratories",
    deviceName := some "AcrySof IQ Vivity Extended Vision Intraocular Lens",
    trialTitle := none, productCode := none,
    decisionDate := .validDate d, startDate := .absent }

/-- The phase-III clinical scenario record of spec section 8. -/
def phase3Record : Record :=
  { source := some "ClinicalTrials.gov", company := none,
    deviceName := none, trialTitle := some "Phase III Study of X",
    productCode := none, decisionDate := .absent, startDate := .absent }

/-- A fixture analyzed record at level CRITICAL with a given score. -/
def criticalFixture (tag : String) (score : Nat) : AnalyzedRecord :=
  { record :=
      { source := none, company := some tag, deviceName := some tag,
        trialTitle := none, productCode := none,
        decisionDate := .absent, startDate := .absent }
    madisonIntelligence :=
      { threatScore := score, threatLevel := "CRITICAL", confidence := 90,
        strategicImplications := [], actionItems := [] } }

/-- Seven CRITICAL fixtures with distinct scores, listed out of order. -/
def sevenCriticals : List AnalyzedRecord :=
  [criticalFixture "r1" 71, criticalFixture "r2" 103, criticalFixture "r3" 85,
   criticalFixture "r4" 120, criticalFixture "r5" 77, criticalFixture "r6" 95,
   criticalFixture "r7" 80]

end HelixInsights

namespace HelixInsights

/-- Claim C4: `is_date_recent` returns false when the date string is
empty, absent, or the sentinel `"N/A"`, returns false on any parse
failure (never raising), and on a valid date returns true iff the
whole-day difference `now - day` lies in the closed interval
`[0, days_threshold]`; in particular a future date (negative
difference) yields false. -/
theorem is_date_recent_characterization (now : Int) (th : Nat) (d : Int) :
    is_date_recent now .absent th = false ∧
    is_date_recent now .emptyString th = false ∧
    is_date_recent now .na th = false ∧
    is_date_recent now .malformed th = false ∧
    (is_date_recent now (.validDate d) th = true ↔
      (0 ≤ now - d ∧ now - d ≤ (th : Int))) ∧
    (now - d < 0 → is_date_recent now (.validDate d) th = false) := by
  refine ⟨rfl, rfl, rfl, rfl, ?_, ?_⟩
  · simp [is_date_recent]
  · intro h
    simp only [is_date_recent, decide_eq_false_iff_not]
    omega

/-- Witness for C4 at concrete inputs: day 10 seen from day 5 is a
future date and not recent; day 0 seen from day 45 is recent within
730 days. -/
theorem is_date_recent_characterization_witness :
    is_date_recent 5 (.validDate 10) 730 = false ∧
    is_date_recent 45 (.validDate 0) 730 = true :=
  ⟨(is_date_recent_characterization 5 730 10).2.2.2.2.2 (by decide),
   (is_date_recent_characterization 45 730 0).2.2.2.2.1.mpr (by decide)⟩

/-- Claim C10: the effective date falls back from `decisionDate` to
`startDate` exactly when `decisionDate` is Python-falsy (absent or the
empty string), not only when absent; the sentinel `"N/A"` is truthy, so
for a record with `decisionDate = "N/A"` and a valid `startDate` within
730 days of now, no fallback occurs and the recency factor contributes
nothing. -/
theorem effective_date_fallback (now d : Int) (src co dn tt pc : Option String)
    (h0 : 0 ≤ now - d) (h1 : now - d ≤ 730) :
    (∀ r : Record, pyFalsyDate r.decisionDate = false →
      effectiveDate r = r.decisionDate) ∧
    (∀ r : Record, pyFalsyDate r.decisionDate = true → r.startDate ≠ .absent →
      effectiveDate r = r.startDate) ∧
    (∀ r : Record, pyFalsyDate r.decisionDate = true → r.startDate = .absent →
      effectiveDate r = .emptyString) ∧
    effectiveDate ⟨src, co, dn, tt, pc, .na, .validDate d⟩ = .na ∧
    factor1 now (effectiveDate ⟨src, co, dn, tt, pc, .na, .validDate d⟩) = (0, 0, []) ∧
    is_date_recent now (.validDate d) 730 = true := by
  refine ⟨?_, ?_, ?_, ?_, ?_, ?_⟩
  · intro r h
    simp [effectiveDate, h]
  · intro r h hne
    cases hsd : r.startDate <;> simp_all [effectiveDate]
  · intro r h hsd
    simp [effectiveDate, h, hsd]
  · rfl
  · rfl
  · simp only [is_date_recent, decide_eq_true_eq]
    omega

/-- Witness for C10 at now = 45, startDate day 0: the `"N/A"` decision
date suppresses the fallback although the start date alone would be
recent. -/
theorem effective_date_fallback_witness :
    effectiveDate ⟨none, none, none, none, none, .na, .validDate 0⟩ = .na ∧
    factor1 45 (effectiveDate ⟨none, none, none, none, none, .na, .validDate 0⟩) = (0, 0, []) ∧
    is_date_recent 45 (.validDate 0) 730 = true :=
  ⟨(effective_date_fallback 45 0 none none none none none (by decide) (by decide)).2.2.2.1,
   (effective_date_fallback 45 0 none none none none none (by decide) (by decide)).2.2.2.2.1,
   (effective_date_fallback 45 0 none none none none none (by decide) (by decide)).2.2.2.2.2⟩

/-- Claim C1: `analyze_record` derives its level and adjusted confidence
from the accumulated score and confidence by the highest-first threshold
table (70 / 50 / 30 / 10 with the stated confidence adjustments, else
LOW with confidence forced to 60); the level is a non-decreasing step
function of the score, and the boundary scores 9, 10, 29, 30, 49, 50,
69, 70 land on the stated sides. -/
theorem analyze_record_level_table (now : Int) (r : Record) (s c s₁ s₂ c₁ c₂ : Nat) :
    ((analyze_record now r).threatScore = rawScore now r ∧
     (analyze_record now r).threatLevel =
       (derive_threat_level (rawScore now r) (rawConfidence now r)).1 ∧
     (analyze_record now r).confidence =
       (derive_threat_level (rawScore now r) (rawConfidence now r)).2) ∧
    (70 ≤ s → derive_threat_level s c = ("CRITICAL", min (c + 25) 95)) ∧
    (50 ≤ s → s < 70 → derive_threat_level s c = ("HIGH", min (c + 15) 90)) ∧
    (30 ≤ s → s < 50 → derive_threat_level s c = ("MEDIUM", min (c + 10) 85)) ∧
    (10 ≤ s → s < 30 → derive_threat_level s c = ("LOW", max c 70)) ∧
    (s < 10 → derive_threat_level s c = ("LOW", 60)) ∧
    (s₁ ≤ s₂ → levelRank (derive_threat_level s₁ c₁).1 ≤ levelRank (derive_threat_level s₂ c₂).1) ∧
    ((derive_threat_level 9 c).1 = "LOW" ∧ (derive_threat_level 9 c).2 = 60 ∧
     (derive_threat_level 10 c).1 = "LOW" ∧ (derive_threat_level 10 c).2 = max c 70 ∧
     (derive_threat_level 29 c).1 = "LOW" ∧ (derive_threat_level 30 c).1 = "MEDIUM" ∧
     (derive_threat_level 49 c).1 = "MEDIUM" ∧ (derive_threat_level 50 c).1 = "HIGH" ∧
     (derive_threat_level 69 c).1 = "HIGH" ∧ (derive_threat_level 70 c).1 = "CRITICAL") := by
  refine ⟨⟨rfl, rfl, rfl⟩, ?_, ?_, ?_, ?_, ?_, ?_, ?_⟩
  · intro h
    simp only [derive_threat_level, if_pos h]
  · intro h1 h2
    simp only [derive_threat_level]
    rw [if_neg (by omega), if_pos h1]
  · intro h1 h2
    simp only [derive_threat_level]
    rw [if_neg (by omega), if_neg (by omega), if_pos h1]
  · intro h1 h2
    simp only [derive_threat_level]
    rw [if_neg (by omega), if_neg (by omega), if_neg (by omega), if_pos h1]
  · intro h
    simp only [derive_threat_level]
    rw [if_neg (by omega), if_neg (by omega), if_neg (by omega), if_neg (by omega)]
  · intro h
    unfold derive_threat_level
    split_ifs <;> simp [levelRank] <;> omega
  · norm_num [derive_threat_level]

/-- Witness for C1: the table applied at score 110 / raw confidence 80,
and monotonicity applied at scores 9 and 70. -/
theorem analyze_record_level_table_witness :
    derive_threat_level 110 80 = ("CRITICAL", min (80 + 25) 95) ∧
    levelRank (derive_threat_level 9 0).1 ≤ levelRank (derive_threat_level 70 0).1 :=
  ⟨(analyze_record_level_table 0 emptyRecord 110 80 0 0 0 0).2.1 (by norm_num),
   (analyze_record_level_table 0 emptyRecord 0 0 9 70 0 0).2.2.2.2.2.2.1 (by norm_num)⟩

/-- Claim C2: the Alcon record (source `"FDA 510(k)"`, company
`"Alcon Laboratories"`, device `"AcrySof IQ Vivity Extended Vision
Intraocular Lens"`, decision date 45 days before now) fires the
recency, ophthalmic, FDA, and competitor factors and nothing else,
giving score 110, level CRITICAL, and confidence min(80 + 25, 95) = 95. -/
theorem alcon_scenario (d : Int) :
    (analyze_record (d + 45) (alconRecord d)).threatScore = 110 ∧
    (analyze_record (d + 45) (alconRecord d)).threatLevel = "CRITICAL" ∧
    (analyze_record (d + 45) (alconRecord d)).confidence = 95 ∧
    (analyze_record (d + 45) (alconRecord d)).strategicImplications =
      ["Recent approval/trial within last 2 years",
       "High-value ophthalmology product category",
       "FDA 510(k) clearance provides market access",
       "Established ophthalmology competitor"] := by
  have hrec : is_date_recent (d + 45) (.validDate d) 730 = true := by
    simp only [is_date_recent, decide_eq_true_eq]
    omega
  have h1 : factor1 (d + 45) (effectiveDate (alconRecord d)) =
      (35, 25, ["Recent approval/trial within last 2 years"]) := by
    rw [show effectiveDate (alconRecord d) = .validDate d from rfl]
    simp [factor1, hrec]
  have hst : searchText (alconRecord d) =
      "acrysof iq vivity extended vision intraocular lens  " := rfl
  have hsrc : sourceStr (alconRecord d) = "FDA 510(k)" := rfl
  have hco : companyLower (alconRecord d) = "alcon laboratories" := rfl
  have htt : trialTitleLower (alconRecord d) = "" := rfl
  have hsc : rawScore (d + 45) (alconRecord d) = 110 := by
    unfold rawScore
    rw [h1, hst, hsrc, hco, htt]
    decide
  have hcf : rawConfidence (d + 45) (alconRecord d) = 80 := by
    unfold rawConfidence
    rw [h1, hst, hsrc, hco, htt]
    decide
  refine ⟨hsc, ?_, ?_, ?_⟩
  · show (derive_threat_level (rawScore (d + 45) (alconRecord d))
      (rawConfidence (d + 45) (alconRecord d))).1 = "CRITICAL"
    rw [hsc, hcf]
    rfl
  · show (derive_threat_level (rawScore (d + 45) (alconRecord d))
      (rawConfidence (d + 45) (alconRecord d))).2 = 95
    rw [hsc, hcf]
    rfl
  · show rawImplications (d + 45) (alconRecord d) = _
    unfold rawImplications
    rw [h1, hst, hsrc, hco, htt]
    decide

/-- Claim C3: the advanced-phase bonus exists only inside the clinical
factor: without `"Clinical"` in the source, factor 5 contributes
nothing at all; with it, the factor contributes 15/10, or 45/30 when
the lowercased trial title also contains an advanced phase term.
Consequently the phase-III record with source `"ClinicalTrials.gov"`
and no date scores 45, level MEDIUM, confidence min(30 + 10, 85) = 40. -/
theorem clinical_phase_bonus (now : Int) (source trial_title : String) :
    (strContains source "Clinical" = false → factor5 source trial_title = (0, 0, [])) ∧
    (strContains source "Clinical" = true → matchesAny trial_title advanced_phases = true →
      factor5 source trial_title =
        (45, 30, ["Active clinical development", "Advanced clinical phase"])) ∧
    (strContains source "Clinical" = true → matchesAny trial_title advanced_phases = false →
      factor5 source trial_title = (15, 10, ["Active clinical development"])) ∧
    (analyze_record now phase3Record).threatScore = 45 ∧
    (analyze_record now phase3Record).threatLevel = "MEDIUM" ∧
    (analyze_record now phase3Record).confidence = 40 := by
  refine ⟨?_, ?_, ?_, rfl, rfl, rfl⟩
  · intro h
    simp [factor5, h]
  · intro h hp
    simp [factor5, h, hp]
  · intro h hp
    simp [factor5, h, hp]

/-- Witness for C3: factor 5 evaluated on the scenario's own source and
lowercased title yields the combined 45/30 contribution. -/
theorem clinical_phase_bonus_witness :
    factor5 "ClinicalTrials.gov" "phase iii study of x" =
      (45, 30, ["Active clinical development", "Advanced clinical phase"]) :=
  (clinical_phase_bonus 0 "ClinicalTrials.gov" "phase iii study of x").2.1
    (by decide) (by decide)

/-- Claim C5: a record for which no scoring factor triggers (no recency
tier, no ophthalmic or advanced term in the search text, no FDA or
Clinical provenance, no competitor substring) gets score 0, level LOW,
and confidence exactly 60. -/
theorem no_factor_scenario (now : Int) (r : Record)
    (h1 : is_date_recent now (effectiveDate r) 730 = false)
    (h2 : is_date_recent now (effectiveDate r) 1825 = false)
    (h3 : matchesAny (searchText r) ophthalmic_terms = false)
    (h4 : matchesAny (searchText r) advanced_terms = false)
    (h5 : strContains (sourceStr r) "FDA" = false)
    (h6 : strContains (sourceStr r) "Clinical" = false)
    (h7 : matchesAny (companyLower r) major_competitors = false) :
    (analyze_record now r).threatScore = 0 ∧
    (analyze_record now r).threatLevel = "LOW" ∧
    (analyze_record now r).confidence = 60 := by
  have hf1 : factor1 now (effectiveDate r) = (0, 0, []) := by simp [factor1, h1, h2]
  have hf2 : factor2 (searchText r) = (0, 0, []) := by simp [factor2, h3]
  have hf3 : factor3 (searchText r) = (0, 0, []) := by simp [factor3, h4]
  have hf4 : factor4 (sourceStr r) = (0, 0, []) := by simp [factor4, h5]
  have hf5 : factor5 (sourceStr r) (trialTitleLower r) = (0, 0, []) := by simp [factor5, h6]
  have hf6 : factor6 (companyLower r) = (0, 0, []) := by simp [factor6, h7]
  have hsc : rawScore now r = 0 := by
    unfold rawScore
    rw [hf1, hf2, hf3, hf4, hf5, hf6]
    rfl
  have hcf : rawConfidence now r = 0 := by
    unfold rawConfidence
    rw [hf1, hf2, hf3, hf4, hf5, hf6]
    rfl
  refine ⟨hsc, ?_, ?_⟩
  · show (derive_threat_level (rawScore now r) (rawConfidence now r)).1 = "LOW"
    rw [hsc, hcf]
    rfl
  · show (derive_threat_level (rawScore now r) (rawConfidence now r)).2 = 60
    rw [hsc, hcf]
    rfl

/-- Witness for C5: the all-absent record at now = 0 triggers nothing
and gets score 0, level LOW, confidence 60. -/
theorem no_factor_scenario_witness :
    (analyze_record 0 emptyRecord).threatScore = 0 ∧
    (analyze_record 0 emptyRecord).threatLevel = "LOW" ∧
    (analyze_record 0 emptyRecord).confidence = 60 :=
  no_factor_scenario 0 emptyRecord (by decide) (by decide) (by decide) (by decide)
    (by decide) (by decide) (by decide)

/-- Claim C6: for every company and device, CRITICAL yields exactly the
four items URGENT, HIGH, MEDIUM, LOW in that order; HIGH yields three;
MEDIUM two; LOW only the quarterly item; and for every level the
quarterly Strategic-Planning review item comes last. -/
theorem action_items_shape (company device level : String) :
    (generate_action_items "CRITICAL" company device).map (fun a => a.priority) =
      ["URGENT", "HIGH", "MEDIUM", "LOW"] ∧
    (generate_action_items "CRITICAL" company device).length = 4 ∧
    (generate_action_items "HIGH" company device).map (fun a => a.priority) =
      ["HIGH", "MEDIUM", "LOW"] ∧
    (generate_action_items "HIGH" company device).length = 3 ∧
    (generate_action_items "MEDIUM" company device).map (fun a => a.priority) =
      ["MEDIUM", "LOW"] ∧
    (generate_action_items "MEDIUM" company device).length = 2 ∧
    (generate_action_items "LOW" company device) = [quarterly_review_item] ∧
    (generate_action_items level company device).getLast? = some quarterly_review_item := by
  refine ⟨rfl, rfl, rfl, rfl, rfl, rfl, rfl, ?_⟩
  unfold generate_action_items
  rw [List.getLast?_append, List.getLast?_append]
  rfl

/-- Claim C7: the executive summary of the empty batch is well formed:
all four threat counts zero, average confidence 0 with no division,
zero total records, and empty top-5 lists. -/
theorem summarize_empty :
    (generate_executive_summary []).threatOverview = ⟨0, 0, 0, 0⟩ ∧
    (generate_executive_summary []).averageConfidence = 0 ∧
    (generate_executive_summary []).totalRecords = 0 ∧
    (generate_executive_summary []).criticalThreats = [] ∧
    (generate_executive_summary []).highThreats = [] :=
  ⟨rfl, rfl, rfl, rfl, rfl⟩

/-- Factor 1 takes one of three values. -/
theorem factor1_cases (now : Int) (d : DateField) :
    factor1 now d = (35, 25, ["Recent approval/trial within last 2 years"]) ∨
    factor1 now d = (20, 15, ["Activity within last 5 years"]) ∨
    factor1 now d = (0, 0, []) := by
  unfold factor1
  split_ifs <;> simp

/-- Factor 2 takes one of two values. -/
theorem factor2_cases (s : String) :
    factor2 s = (30, 20, ["High-value ophthalmology product category"]) ∨
    factor2 s = (0, 0, []) := by
  unfold factor2
  split_ifs <;> simp

/-- Factor 3 takes one of two values. -/
theorem factor3_cases (s : String) :
    factor3 s = (25, 15, ["Advanced surgical or premium device"]) ∨
    factor3 s = (0, 0, []) := by
  unfold factor3
  split_ifs <;> simp

/-- Factor 4 takes one of two values. -/
theorem factor4_cases (s : String) :
    factor4 s = (20, 15, ["FDA 510(k) clearance provides market access"]) ∨
    factor4 s = (0, 0, []) := by
  unfold factor4
  split_ifs <;> simp

/-- Factor 5 takes one of three values. -/
theorem factor5_cases (s t : String) :
    factor5 s t = (45, 30, ["Active clinical development", "Advanced clinical phase"]) ∨
    factor5 s t = (15, 10, ["Active clinical development"]) ∨
    factor5 s t = (0, 0, []) := by
  unfold factor5
  split_ifs <;> simp

/-- Factor 6 takes one of two values. -/
theorem factor6_cases (s : String) :
    factor6 s = (25, 20, ["Established ophthalmology competitor"]) ∨
    factor6 s = (0, 0, []) := by
  unfold factor6
  split_ifs <;> simp

/-- Claim C9: whenever `analyze_record` assigns level LOW, the final
confidence is exactly 60 or exactly 70; it is 60 exactly when the score
is 0 (no factor fired) and 70 exactly when the score lies in
`[10, 30)` (one factor fired): any two factors sum to at least 35 and a
single factor's confidence is at most 20, so `max(confidence, 70)`
always yields 70. -/
theorem low_level_confidence (now : Int) (r : Record)
    (h : (analyze_record now r).threatLevel = "LOW") :
    ((analyze_record now r).confidence = 60 ∨ (analyze_record now r).confidence = 70) ∧
    ((analyze_record now r).confidence = 60 ↔ (analyze_record now r).threatScore = 0) ∧
    ((analyze_record now r).confidence = 70 ↔
      (10 ≤ (analyze_record now r).threatScore ∧ (analyze_record now r).threatScore < 30)) := by
  have hs : (analyze_record now r).threatScore = rawScore now r := rfl
  have hc : (analyze_record now r).confidence =
      (derive_threat_level (rawScore now r) (rawConfidence now r)).2 := rfl
  have hl : (analyze_record now r).threatLevel =
      (derive_threat_level (rawScore now r) (rawConfidence now r)).1 := rfl
  rw [hl] at h
  rw [hs, hc]
  rcases factor1_cases now (effectiveDate r) with h1 | h1 | h1 <;>
    rcases factor2_cases (searchText r) with h2 | h2 <;>
    rcases factor3_cases (searchText r) with h3 | h3 <;>
    rcases factor4_cases (sourceStr r) with h4 | h4 <;>
    rcases factor5_cases (sourceStr r) (trialTitleLower r) with h5 | h5 | h5 <;>
    rcases factor6_cases (companyLower r) with h6 | h6 <;>
    (simp only [rawScore, rawConfidence, h1, h2, h3, h4, h5, h6] at h ⊢; revert h; decide)

/-- Inserting adds one to the length. -/
theorem length_orderedInsertDesc {α : Type} (key : α → Nat) (a : α) (l : List α) :
    (orderedInsertDesc key a l).length = l.length + 1 := by
  induction l with
  | nil => rfl
  | cons b t ih =>
    by_cases h : key b ≤ key a
    · simp [orderedInsertDesc, h]
    · simp [orderedInsertDesc, h, ih]

/-- Sorting preserves the length. -/
theorem length_pySortDescBy {α : Type} (key : α → Nat) (l : List α) :
    (pySortDescBy key l).length = l.length := by
  induction l with
  | nil => rfl
  | cons a t ih => simp [pySortDescBy, length_orderedInsertDesc, ih]

/-- Membership in an insertion. -/
theorem mem_orderedInsertDesc {α : Type} (key : α → Nat) (a x : α) (l : List α) :
    x ∈ orderedInsertDesc key a l ↔ x = a ∨ x ∈ l := by
  induction l with
  | nil => simp [orderedInsertDesc]
  | cons b t ih =>
    by_cases h : key b ≤ key a
    · simp [orderedInsertDesc, h]
    · simp [orderedInsertDesc, h, ih]
      tauto

/-- Inserting into a weakly descending list keeps it weakly descending. -/
theorem pairwise_orderedInsertDesc {α : Type} (key : α → Nat) (a : α) (l : List α)
    (h : l.Pairwise (fun x y => key y ≤ key x)) :
    (orderedInsertDesc key a l).Pairwise (fun x y => key y ≤ key x) := by
  induction l with
  | nil => simp [orderedInsertDesc]
  | cons b t ih =>
    rw [List.pairwise_cons] at h
    obtain ⟨hb, ht⟩ := h
    by_cases hc : key b ≤ key a
    · rw [show orderedInsertDesc key a (b :: t) = a :: b :: t from by
        simp [orderedInsertDesc, hc]]
      rw [List.pairwise_cons]
      refine ⟨?_, ?_⟩
      · intro x hx
        rcases List.mem_cons.mp hx with rfl | hx
        · exact hc
        · exact le_trans (hb x hx) hc
      · rw [List.pairwise_cons]
        exact ⟨hb, ht⟩
    · rw [show orderedInsertDesc key a (b :: t) = b :: orderedInsertDesc key a t from by
        simp [orderedInsertDesc, hc]]
      rw [List.pairwise_cons]
      refine ⟨?_, ih ht⟩
      intro x hx
      rcases (mem_orderedInsertDesc key a x t).mp hx with rfl | hx
      · omega
      · exact hb x hx

/-- The sorted list is weakly descending in the key. -/
theorem pairwise_pySortDescBy {α : Type} (key : α → Nat) (l : List α) :
    (pySortDescBy key l).Pairwise (fun x y => key y ≤ key x) := by
  induction l with
  | nil => simp [pySortDescBy]
  | cons a t ih => exact pairwise_orderedInsertDesc key a _ ih

/-- Filtering an insertion at any key value: the inserted element lands
in front of the equal-key elements already present (the insertion point
is before the first element of key less than or equal to the new one). -/
theorem filter_orderedInsertDesc {α : Type} (key : α → Nat) (a : α) (l : List α) (k : Nat) :
    (orderedInsertDesc key a l).filter (fun x => key x == k) =
      if key a = k then a :: l.filter (fun x => key x == k)
      else l.filter (fun x => key x == k) := by
  induction l with
  | nil =>
    by_cases hk : key a = k <;> simp [orderedInsertDesc, List.filter_cons, hk]
  | cons b t ih =>
    by_cases hc : key b ≤ key a
    · rw [show orderedInsertDesc key a (b :: t) = a :: b :: t from by
        simp [orderedInsertDesc, hc]]
      by_cases hk : key a = k <;> simp [List.filter_cons, hk]
    · rw [show orderedInsertDesc key a (b :: t) = b :: orderedInsertDesc key a t from by
        simp [orderedInsertDesc, hc]]
      by_cases hk : key a = k
      · have hbk : (key b == k) = false := by
          simp only [beq_eq_false_iff_ne, ne_eq]
          omega
        simp [List.filter_cons, hbk, ih, hk]
      · simp [List.filter_cons, ih, hk]

/-- Stability of the descending sort: at every key value, the sorted
list's elements with that key are exactly the input's elements with that
key in their original order. -/
theorem filter_pySortDescBy {α : Type} (key : α → Nat) (l : List α) (k : Nat) :
    (pySortDescBy key l).filter (fun x => key x == k) =
      l.filter (fun x => key x == k) := by
  induction l with
  | nil => rfl
  | cons a t ih =>
    rw [show pySortDescBy key (a :: t) = orderedInsertDesc key a (pySortDescBy key t) from rfl]
    rw [filter_orderedInsertDesc, ih]
    by_cases hk : key a = k <;> simp [List.filter_cons, hk]

/-- Claim C8: each of `criticalThreats` and `highThreats` is the top-5
prefix of the stable descending-by-score sort of the projections taken
in batch order: it has at most 5 entries, is weakly descending in
`threatScore`, and the sort preserves the relative batch order of
equal-score entries (their filter at any score value is unchanged); on
the seven CRITICAL fixtures with distinct scores the summary exposes
exactly the five highest scores in descending order. -/
theorem summary_top5 (records : List AnalyzedRecord) (k : Nat) :
    (generate_executive_summary records).criticalThreats =
      (pySortDescBy (fun e => e.threatScore) (criticalThreatsAll records)).take 5 ∧
    (generate_executive_summary records).criticalThreats.length ≤ 5 ∧
    (generate_executive_summary records).criticalThreats.Pairwise
      (fun a b => b.threatScore ≤ a.threatScore) ∧
    (pySortDescBy (fun e => e.threatScore) (criticalThreatsAll records)).filter
        (fun e => e.threatScore == k) =
      (criticalThreatsAll records).filter (fun e => e.threatScore == k) ∧
    (generate_executive_summary records).highThreats =
      (pySortDescBy (fun e => e.threatScore) (highThreatsAll records)).take 5 ∧
    (generate_executive_summary records).highThreats.length ≤ 5 ∧
    (generate_executive_summary records).highThreats.Pairwise
      (fun a b => b.threatScore ≤ a.threatScore) ∧
    (pySortDescBy (fun e => e.threatScore) (highThreatsAll records)).filter
        (fun e => e.threatScore == k) =
      (highThreatsAll records).filter (fun e => e.threatScore == k) ∧
    (generate_executive_summary sevenCriticals).criticalThreats.map
        (fun e => e.threatScore) = [120, 103, 95, 85, 80] ∧
    (generate_executive_summary sevenCriticals).criticalThreats.map
        (fun e => e.company) = ["r4", "r2", "r6", "r3", "r7"] := by
  refine ⟨rfl, ?_, ?_, filter_pySortDescBy _ _ _, rfl, ?_, ?_,
    filter_pySortDescBy _ _ _, ?_, ?_⟩
  · show ((pySortDescBy (fun e : CriticalEntry => e.threatScore)
      (criticalThreatsAll records)).take 5).length ≤ 5
    exact List.length_take_le 5 _
  · show ((pySortDescBy (fun e : CriticalEntry => e.threatScore)
      (criticalThreatsAll records)).take 5).Pairwise
        (fun a b => b.threatScore ≤ a.threatScore)
    exact List.Pairwise.sublist (List.take_sublist 5 _)
      (pairwise_pySortDescBy (fun e : CriticalEntry => e.threatScore) _)
  · show ((pySortDescBy (fun e : HighEntry => e.threatScore)
      (highThreatsAll records)).take 5).length ≤ 5
    exact List.length_take_le 5 _
  · show ((pySortDescBy (fun e : HighEntry => e.threatScore)
      (highThreatsAll records)).take 5).Pairwise
        (fun a b => b.threatScore ≤ a.threatScore)
    exact List.Pairwise.sublist (List.take_sublist 5 _)
      (pairwise_pySortDescBy (fun e : HighEntry => e.threatScore) _)
  · decide
  · decide

/-- Witness for C9: the all-absent record is LOW with confidence 60 and
score 0. -/
theorem low_level_confidence_witness :
    ((analyze_record 0 emptyRecord).confidence = 60 ∨
      (analyze_record 0 emptyRecord).confidence = 70) ∧
    ((analyze_record 0 emptyRecord).confidence = 60 ↔
      (analyze_record 0 emptyRecord).threatScore = 0) ∧
    ((analyze_record 0 emptyRecord).confidence = 70 ↔
      (10 ≤ (analyze_record 0 emptyRecord).threatScore ∧
        (analyze_record 0 emptyRecord).threatScore < 30)) :=
  low_level_confidence 0 emptyRecord (by decide)

end HelixInsights
